import Mathlib

/-!
Verification development for the audit-and-security-monitoring core of the
firebird-mcp repository.  The definitions below are a shallow embedding of
the JavaScript classes `SecurityAudit` (audit log, rule engine, reports,
retention) and `NotificationService` (publish/subscribe bus, export/import).

Modelling conventions:
* Timestamps are epoch milliseconds (`Nat`).  The source stores ISO-8601
  strings of one fixed format; lexicographic comparison of such strings
  agrees with numeric comparison of the instants, and `new Date(ts)`
  comparisons are numeric, so `Nat` with `<`/`≤` models both read paths.
* `Date#getHours` is modelled at UTC offset zero.
* The audit log file is a list of lines.  A line is either a well-formed
  audit entry, a security-event record (written by `logSecurityEvent`), or
  a malformed line (one that `JSON.parse` rejects).
* A JavaScript truthiness test on an optional string is modelled by
  `Option String` being `some` of a non-empty string.
-/

namespace Firebird

/-- `String.prototype.startsWith`-style check on character lists:
`strStarts s p` is true when `p` is an initial segment of `s`. -/
def strStarts : List Char → List Char → Bool
  | _, [] => true
  | [], _ :: _ => false
  | a :: s, b :: t => a == b && strStarts s t

/-- Substring occurrence on character lists (scan every suffix). -/
def strHasSub : List Char → List Char → Bool
  | [], sub => sub.isEmpty
  | a :: s, sub => strStarts (a :: s) sub || strHasSub s sub

/-- `s.includes(sub)` of JavaScript: `sub` occurs contiguously in `s`. -/
def strIncludes (s sub : String) : Bool :=
  strHasSub s.data sub.data

/-- `new Date(ts).getHours()` for an epoch-millisecond timestamp,
modelled at UTC offset zero. -/
def jsGetHours (ts : Nat) : Nat :=
  ts / 3600000 % 24

/-- One parsed audit entry, as assembled by `SecurityAudit.logOperation`
(fields `timestamp, user, operation, resource, query, success, message,
ip, userAgent`). -/
structure AuditEntry where
  timestamp : Nat
  user : String
  operation : String
  resource : Option String
  query : String
  success : Bool
  message : String
  ip : String
  userAgent : String
  deriving DecidableEq, Repr

/-- One security-event record, as written by
`SecurityAudit.logSecurityEvent` (`timestamp, event, user` plus the spread
details, of which the severity matters here).  Such a record has no
`operation`, `success` or `ip` field. -/
structure SecRecord where
  timestamp : Nat
  event : String
  user : String
  severity : String
  deriving DecidableEq, Repr

/-- One line of the newline-delimited audit log file: a well-formed audit
entry, a security-event record, or a line `JSON.parse` rejects. -/
inductive LogLine where
  | ok (e : AuditEntry)
  | sec (r : SecRecord)
  | bad (s : String)
  deriving DecidableEq, Repr

/-- The security configuration object (`loadSecurityConfig`). -/
structure SecurityConfig where
  sensitiveTables : List String
  maxFailedAttempts : Nat
  lockoutDuration : Nat
  auditRetentionDays : Nat
  alertOnSuspiciousActivity : Bool
  allowedOperations : List String
  restrictedOperations : List String
  deriving DecidableEq, Repr

/-- The default configuration returned by `loadSecurityConfig` when no
config file is present. -/
def defaultSecurityConfig : SecurityConfig where
  sensitiveTables := ["USERS", "PASSWORDS", "CREDENTIALS", "TOKENS"]
  maxFailedAttempts := 5
  lockoutDuration := 300000
  auditRetentionDays := 90
  alertOnSuspiciousActivity := true
  allowedOperations := ["SELECT", "INSERT", "UPDATE", "DELETE"]
  restrictedOperations := ["DROP", "ALTER", "CREATE", "GRANT", "REVOKE"]

/-- One suspicious-activity record pushed by `checkSuspiciousActivity`
(its `type` and `severity` strings; the free-text message is elided). -/
structure SecurityActivity where
  atype : String
  severity : String
  deriving DecidableEq, Repr

/-- `getRecentFailedAttempts(user, minutes)`: count of parsed lines that
are failed LOGIN-class entries of `user` strictly after the cutoff
(`entry.timestamp > cutoffTime`).  A security-event record has no
`operation` field, so `entry.operation.includes` throws inside the
per-line `try` and the line is skipped, exactly like a malformed line. -/
def getRecentFailedAttempts (log : List LogLine) (user : String) (cutoff : Nat) : Nat :=
  log.countP fun l =>
    match l with
    | .ok e => e.user == user && strIncludes e.operation "LOGIN"
        && !e.success && decide (cutoff < e.timestamp)
    | .sec _ => false
    | .bad _ => false

/-- `getRecentOperations(user, minutes)`: the parsed lines with matching
`user` strictly after the cutoff.  Security-event records do carry `user`
and `timestamp`, so they are collected too. -/
def getRecentOperations (log : List LogLine) (user : String) (cutoff : Nat) : List LogLine :=
  log.filter fun l =>
    match l with
    | .ok e => e.user == user && decide (cutoff < e.timestamp)
    | .sec r => r.user == user && decide (cutoff < r.timestamp)
    | .bad _ => false

/-- `String.prototype.toUpperCase`, character by character (the names
involved are ASCII). -/
def strToUpper (s : String) : String :=
  ⟨s.data.map Char.toUpper⟩

/-- The per-table test of the sensitive-table rule:
`auditEntry.resource && auditEntry.resource.toUpperCase().includes(table)`. -/
def resourceHit (res : Option String) (t : String) : Bool :=
  match res with
  | some r => !(r == "") && strIncludes (strToUpper r) t
  | none => false

/-- `checkSuspiciousActivity(auditEntry)`: the four inline rules, each
pushing at most one activity, evaluated against the log contents at call
time (which include the just-appended entry).  `cutFail` and `cutOps`
stand for the now-minus-5-minutes and now-minus-10-minutes cutoffs. -/
def checkSuspiciousActivity (cfg : SecurityConfig) (log : List LogLine)
    (e : AuditEntry) (cutFail cutOps : Nat) : List SecurityActivity :=
  (if !e.success && strIncludes e.operation "LOGIN"
      && decide (cfg.maxFailedAttempts ≤ getRecentFailedAttempts log e.user cutFail)
   then [{ atype := "MULTIPLE_FAILED_LOGINS", severity := "HIGH" }] else [])
  ++
  (if cfg.sensitiveTables.any fun t => resourceHit e.resource t
   then [{ atype := "SENSITIVE_TABLE_ACCESS", severity := "MEDIUM" }] else [])
  ++
  (if decide (jsGetHours e.timestamp < 6) || decide (22 < jsGetHours e.timestamp)
   then [{ atype := "UNUSUAL_TIME_ACCESS", severity := "LOW" }] else [])
  ++
  (if decide (50 < (getRecentOperations log e.user cutOps).length)
   then [{ atype := "HIGH_FREQUENCY_OPERATIONS", severity := "MEDIUM" }] else [])

/-- The caller-visible outcome of one `logOperation` call: the audit file
contents afterwards, the exception (if any) propagated to the caller, and
the `logger.error` messages emitted. -/
structure LogOpOutcome where
  log : List LogLine
  propagated : Option String
  loggedErrors : List String
  deriving DecidableEq, Repr

/-- `logOperation(operationData)`.  The body is one `try` block: append
the entry line, then run `checkSuspiciousActivity` (whose triggered
activities are appended as security-event records by `logSecurityEvent`);
the `catch` only calls `logger.error`, so no error ever reaches the
caller.  `writable` says whether the append target accepts writes; `now`
is the clock used for the security-event timestamps. -/
def logOperation (writable : Bool) (cfg : SecurityConfig) (log : List LogLine)
    (e : AuditEntry) (now cutFail cutOps : Nat) : LogOpOutcome :=
  if writable then
    let log1 := log ++ [LogLine.ok e]
    let acts := checkSuspiciousActivity cfg log1 e cutFail cutOps
    { log := log1 ++ acts.map fun a => LogLine.sec
        { timestamp := now, event := a.atype, user := e.user, severity := a.severity }
      propagated := none
      loggedErrors := [] }
  else
    { log := log
      propagated := none
      loggedErrors := ["Erro ao registrar operação de auditoria:"] }

/-- The filter arguments of `generateAuditReport` (an absent field means
the corresponding filter is not applied; an `undefined` or otherwise falsy
`user`/`operation` filter is likewise not applied). -/
structure ReportOptions where
  startDate : Nat
  endDate : Nat
  user : Option String
  operation : Option String
  success : Option Bool
  deriving DecidableEq, Repr

/-- The per-line filter of `generateAuditReport`: a malformed line fails
`JSON.parse` and is skipped; a security-event record passes the time and
user filters (it has those fields) but its `operation`/`success` are
`undefined`, so it is rejected whenever one of those filters is present. -/
def lineInFilter (o : ReportOptions) : LogLine → Bool
  | .ok e =>
      !(decide (e.timestamp < o.startDate) || decide (o.endDate < e.timestamp))
      && (match o.user with | some u => e.user == u | none => true)
      && (match o.operation with | some op => e.operation == op | none => true)
      && (match o.success with | some s => e.success == s | none => true)
  | .sec r =>
      !(decide (r.timestamp < o.startDate) || decide (o.endDate < r.timestamp))
      && (match o.user with | some u => r.user == u | none => true)
      && (match o.operation with | some _ => false | none => true)
      && (match o.success with | some _ => false | none => true)
  | .bad _ => false

/-- The `filteredEntries` list built by `generateAuditReport`. -/
def filterEntries (log : List LogLine) (o : ReportOptions) : List LogLine :=
  log.filter (lineInFilter o)

/-- `entry.success` as a truthiness test on a filtered line (a
security-event record has no `success` field, hence falsy). -/
def lineSuccess : LogLine → Bool
  | .ok e => e.success
  | .sec _ => false
  | .bad _ => false

/-- The observable content of a formatted audit report: the printed total,
whether the explicit "Nenhuma operação encontrada" empty-state message is
present, the success/failure counts, and the success rate (`none` when the
early return for an empty list fires, so the rate is never computed by a
division by zero). -/
structure AuditReport where
  total : Nat
  emptyMessage : Bool
  successCount : Nat
  failedCount : Nat
  successRatePct : Option Rat
  deriving DecidableEq, Repr

/-- `formatAuditReport(entries, options)`. -/
def formatAuditReport (entries : List LogLine) : AuditReport :=
  if entries.length = 0 then
    { total := 0, emptyMessage := true, successCount := 0, failedCount := 0
      successRatePct := none }
  else
    let s := entries.countP lineSuccess
    { total := entries.length
      emptyMessage := false
      successCount := s
      failedCount := entries.length - s
      successRatePct := some ((s : Rat) / (entries.length : Rat) * 100) }

/-- `generateAuditReport(options)`: filter the stored lines, then format. -/
def generateAuditReport (log : List LogLine) (o : ReportOptions) : AuditReport :=
  formatAuditReport (filterEntries log o)

/-- Whether a line is a security-event record. -/
def isSec : LogLine → Bool
  | .sec _ => true
  | _ => false

/-- Whether a line is malformed (rejected by `JSON.parse`). -/
def isBad : LogLine → Bool
  | .bad _ => true
  | _ => false

/-- The `recentEntries` list of `detectSuspiciousActivity`: parsed lines
strictly after the 24-hour cutoff. -/
def recentParsed (log : List LogLine) (cutoff : Nat) : List LogLine :=
  log.filter fun l =>
    match l with
    | .ok e => decide (cutoff < e.timestamp)
    | .sec r => decide (cutoff < r.timestamp)
    | .bad _ => false

/-- The audit entries among a list of lines. -/
def entriesOf (ls : List LogLine) : List AuditEntry :=
  ls.filterMap fun l =>
    match l with
    | .ok e => some e
    | _ => none

/-- Keys of a JavaScript object built by grouping, in insertion order
(first occurrence order). -/
def firstOccur (xs : List String) : List String :=
  xs.foldl (fun acc u => if acc.contains u then acc else acc ++ [u]) []

/-- The per-user pass of `detectSuspiciousActivity` over the grouped
recent entries. -/
def scanByUser (es : List AuditEntry) : List SecurityActivity :=
  (firstOccur (es.map fun e => e.user)).flatMap fun u =>
    let acts := es.filter fun e => e.user == u
    (if decide (100 < acts.length)
     then [{ atype := "HIGH_FREQUENCY_USER", severity := "MEDIUM" }] else [])
    ++
    (if decide (10 < (acts.filter fun a => !a.success && strIncludes a.operation "LOGIN").length)
     then [{ atype := "MULTIPLE_FAILED_LOGINS", severity := "HIGH" }] else [])

/-- The per-address pass of `detectSuspiciousActivity`. -/
def scanByIp (es : List AuditEntry) : List SecurityActivity :=
  (firstOccur (es.map fun e => e.ip)).flatMap fun ip =>
    let acts := es.filter fun e => e.ip == ip
    if decide (200 < acts.length)
    then [{ atype := "HIGH_FREQUENCY_IP", severity := "MEDIUM" }] else []

/-- `detectSuspiciousActivity()`.  A security-event record in the window
has no `operation` field, so the per-user `filter` callback throws a
`TypeError`; the surrounding `catch` then returns `[]`.  Otherwise all
recent parsed lines are audit entries and both grouped passes run. -/
def detectSuspiciousActivity (log : List LogLine) (cutoff : Nat) : List SecurityActivity :=
  let recent := recentParsed log cutoff
  if recent.any isSec then []
  else scanByUser (entriesOf recent) ++ scanByIp (entriesOf recent)

/-- The per-line keep test of `cleanOldAuditLogs`: keep a parsed record
iff its timestamp is strictly newer than the cutoff
(`new Date(entry.timestamp) > cutoffDate`); keep every malformed line
(the `catch` returns `true`). -/
def keepLine (cutoff : Nat) : LogLine → Bool
  | .ok e => decide (cutoff < e.timestamp)
  | .sec r => decide (cutoff < r.timestamp)
  | .bad _ => true

/-- The `filteredLines` computed by `cleanOldAuditLogs`. -/
def cleanLines (log : List LogLine) (cutoff : Nat) : List LogLine :=
  log.filter (keepLine cutoff)

/-- Outcome of the single `fs.writeFileSync` call of `cleanOldAuditLogs`.
`writeFileSync` truncates the target and writes the new contents in
place; a failure mid-write (disk full, power loss) leaves an initial
segment of the new contents on disk.  `failAfter n` models a failure
after `n` records were written. -/
inductive WriteOutcome where
  | ok
  | failAfter (n : Nat)
  deriving DecidableEq, Repr

/-- One run of `cleanOldAuditLogs`: read the file (if reading throws, the
`catch` leaves the file untouched), filter, then overwrite the same path
with `fs.writeFileSync` — an in-place rewrite, not a
write-new-then-rename. -/
def cleanOldAuditLogsRun (log : List LogLine) (readable : Bool)
    (w : WriteOutcome) (cutoff : Nat) : List LogLine :=
  if readable then
    match w with
    | .ok => cleanLines log cutoff
    | .failAfter n => (cleanLines log cutoff).take n
  else log

/-- One notification held by the `NotificationService` registry
(`id, type, message, details, timestamp, read`); the open `details`
mapping is modelled as a key/value list. -/
structure Notification where
  id : String
  ntype : String
  message : String
  timestamp : String
  read : Bool
  details : List (String × String)
  deriving DecidableEq, Repr

/-- A subscriber callback: its identity (for tracing which callbacks the
bus invoked) and whether a given invocation returns normally (`true`) or
throws (`false`). -/
structure Handler where
  hid : Nat
  succeeds : Notification → Bool

/-- `Map#set` on the subscribers map, modelled as an association list
with the `Map` insertion-order semantics: update the existing key in
place, or append a new key at the end. -/
def setFirst : List (String × List Handler) → String → List Handler →
    List (String × List Handler)
  | [], t, v => [(t, v)]
  | (k, w) :: rest, t, v =>
      if k == t then (t, v) :: rest else (k, w) :: setFirst rest t v

/-- The callback list the bus holds for an event type (`Map#get`, with a
missing key behaving as the empty list, matching the `has` guards). -/
def handlersFor (subs : List (String × List Handler)) (t : String) : List Handler :=
  match subs.lookup t with
  | some hs => hs
  | none => []

/-- `subscribe(eventType, callback)`: create the empty list for a new
event type, then push the callback onto that type's list. -/
def subscribe (subs : List (String × List Handler)) (t : String) (h : Handler) :
    List (String × List Handler) :=
  let subs1 := if (subs.lookup t).isNone then setFirst subs t [] else subs
  setFirst subs1 t (handlersFor subs1 t ++ [h])

/-- The `for (const callback of callbacks)` loop of `notifySubscribers`:
every callback is awaited inside its own `try`/`catch`, so a throwing
callback is recorded in the error log and the loop continues.  Returns
the invoked callback ids in order, and the ids whose invocation threw. -/
def runCallbacks (n : Notification) : List Handler → List Nat × List Nat
  | [] => ([], [])
  | h :: t =>
      let r := runCallbacks n t
      if h.succeeds n then (h.hid :: r.1, r.2) else (h.hid :: r.1, h.hid :: r.2)

/-- `notifySubscribers(notification)`: run the callbacks registered for
`notification.type`, then the callbacks registered for the wildcard type
`"*"`.  The function itself never throws. -/
def notifySubscribers (subs : List (String × List Handler)) (n : Notification) :
    List Nat × List Nat :=
  let a := runCallbacks n (handlersFor subs n.ntype)
  let b := runCallbacks n (handlersFor subs "*")
  (a.1 ++ b.1, a.2 ++ b.2)

/-- `validateNotification(notification)`: the required `type`, `message`
and `timestamp` fields must be truthy (non-empty). -/
def validateNotification (n : Notification) : Bool :=
  !(n.ntype == "") && !(n.message == "") && !(n.timestamp == "")

/-- `exportNotifications('json')` is `JSON.stringify(this.notifications)`;
parsing the produced string back gives a structurally identical array, so
the serialized form is modelled by the notification list itself. -/
def exportNotificationsJson (ns : List Notification) : List Notification :=
  ns

/-- `importNotifications(data, 'json')`: for each imported notification
that passes `validateNotification`, overwrite its `id` with a freshly
generated id (`generateNotificationId`, modelled as a stream `fresh`
indexed by how many notifications were already added) and push it;
invalid notifications are dropped.  Returns the registry contents and the
`addedCount`. -/
def importNotifications (bus : List Notification) (data : List Notification)
    (fresh : Nat → String) : List Notification × Nat :=
  data.foldl
    (fun acc n =>
      if validateNotification n then
        (acc.1 ++ [{ n with id := fresh acc.2 }], acc.2 + 1)
      else acc)
    (bus, 0)

/-- The imported notifications in order, ids reassigned from the fresh-id
stream starting at index `c`. -/
def reassign (fresh : Nat → String) : Nat → List Notification → List Notification
  | _, [] => []
  | c, n :: t => { n with id := fresh c } :: reassign fresh (c + 1) t

/-- A sample successful SELECT entry by alice at 10:00 UTC. -/
def eBase : AuditEntry where
  timestamp := 36000000
  user := "alice"
  operation := "SELECT"
  resource := none
  query := "SELECT 1"
  success := true
  message := "ok"
  ip := "127.0.0.1"
  userAgent := "Firebird-MCP-Server"

/-- A sample entry touching the sensitive table USERS, successfully. -/
def eUsers : AuditEntry :=
  { eBase with resource := some "USERS" }

/-- A sample entry whose resource is the lowercase string "users". -/
def eUsersLower : AuditEntry :=
  { eBase with resource := some "users" }

/-- A configuration whose sensitive-table list holds a lowercase name. -/
def cfgLower : SecurityConfig :=
  { defaultSecurityConfig with sensitiveTables := ["users"] }

/-- A sample entry whose local hour-of-day is exactly 22. -/
def e22 : AuditEntry :=
  { eBase with timestamp := 79200000 }

/-- The i-th failed LOGIN attempt of user bob. -/
def bobFail (i : Nat) : AuditEntry :=
  { eBase with
    timestamp := 100 + i
    user := "bob"
    operation := "LOGIN"
    success := false }

/-- An audit log holding six failed LOGIN entries of bob. -/
def logBob6 : List LogLine :=
  [LogLine.ok (bobFail 1), LogLine.ok (bobFail 2), LogLine.ok (bobFail 3),
   LogLine.ok (bobFail 4), LogLine.ok (bobFail 5), LogLine.ok (bobFail 6)]

/-- A sample entry dated strictly after the retention cutoff used below. -/
def eFresh : AuditEntry :=
  { eBase with timestamp := 2000 }

/-- A sample entry dated exactly at the retention cutoff 1000. -/
def eAtCut : AuditEntry :=
  { eBase with timestamp := 1000 }

/-- A sample entry dated exactly at the retention cutoff 500. -/
def eBoundary : AuditEntry :=
  { eBase with timestamp := 500 }

/-- Report options with a wide time range and no further filters. -/
def opts0 : ReportOptions where
  startDate := 0
  endDate := 1000000000
  user := none
  operation := none
  success := none

/-- Report options whose time range is empty. -/
def optsEmptyRange : ReportOptions where
  startDate := 2000
  endDate := 1000
  user := none
  operation := none
  success := none

/-- A valid sample notification. -/
def nValid : Notification where
  id := "notif_1"
  ntype := "SYSTEM_ALERT"
  message := "hello"
  timestamp := "2026-01-01T00:00:00.000Z"
  read := false
  details := [("category", "system"), ("severity", "high")]

/-- A notification with an empty message (a falsy required field). -/
def nEmptyMsg : Notification :=
  { nValid with id := "notif_2", message := "" }

/-- A fresh-id stream for the import model. -/
def freshIds (k : Nat) : String :=
  "notif_fresh_" ++ toString k

/-- A callback that always throws. -/
def hThro : Handler where
  hid := 1
  succeeds := fun _ => false

/-- A callback that always returns normally. -/
def hOk : Handler where
  hid := 2
  succeeds := fun _ => true

/-- A bus state with two callbacks registered for type "X". -/
def subsX : List (String × List Handler) :=
  subscribe (subscribe [] "X" hThro) "X" hOk

/-- A sample notification of type "X". -/
def nX : Notification where
  id := "n1"
  ntype := "X"
  message := "m"
  timestamp := "2026-01-01T00:00:00.000Z"
  read := false
  details := []

/-! ## Helper lemmas -/

theorem filter_single_if_eq (p : SecurityActivity → Bool) (c : Bool)
    (x : SecurityActivity) :
    List.filter p (if c then [x] else []) = if c && p x then [x] else [] := by
  cases c <;> cases hx : p x <;> simp [hx]

theorem filter_single_ite (p : SecurityActivity → Bool) (c : Prop) [Decidable c]
    (x : SecurityActivity) :
    List.filter p (if c then [x] else []) = if c ∧ p x = true then [x] else [] := by
  by_cases hc : c <;> cases hx : p x <;> simp [hc, hx]

/-! ## C3: the unusual-time rule -/

/-- C3 (amended): evaluating an entry emits exactly one UNUSUAL_TIME_ACCESS
activity, at LOW severity, precisely when the entry's hour-of-day is below
6 or strictly above 22; an entry with hour in [6,22] emits none. -/
theorem C3_unusual_time_rule (cfg : SecurityConfig) (log : List LogLine)
    (e : AuditEntry) (cutFail cutOps : Nat) :
    (checkSuspiciousActivity cfg log e cutFail cutOps).filter
        (fun a => a.atype == "UNUSUAL_TIME_ACCESS")
      = if jsGetHours e.timestamp < 6 ∨ 22 < jsGetHours e.timestamp
        then [{ atype := "UNUSUAL_TIME_ACCESS", severity := "LOW" }] else [] := by
  unfold checkSuspiciousActivity
  simp [List.filter_append, filter_single_ite]

/-- C3 (counterexample to the claim as stated): an entry whose hour-of-day
is exactly 22 — which the claim places outside [6,22) and so requires an
UNUSUAL_TIME_ACCESS event for — makes the code emit no such event. -/
theorem C3_hour22_no_event :
    (checkSuspiciousActivity defaultSecurityConfig [] e22 0 0).filter
        (fun a => a.atype == "UNUSUAL_TIME_ACCESS") = []
    ∧ 22 ≤ jsGetHours e22.timestamp := by
  constructor
  · decide
  · decide

/-! ## C1: the repeated-failure rule -/

/-- C1: evaluating an entry emits exactly one MULTIPLE_FAILED_LOGINS
activity, at HIGH severity, precisely when the entry is a failed
LOGIN-class operation and the count of failed LOGIN-class entries of the
same user within the window reaches `maxFailedAttempts`; in particular,
with `maxFailedAttempts = 5` and six failed LOGIN entries of bob within
the window, evaluating the sixth emits exactly that one HIGH activity. -/
theorem C1_repeated_failure_rule (cfg : SecurityConfig) (log : List LogLine)
    (e : AuditEntry) (cutFail cutOps : Nat) :
    ((checkSuspiciousActivity cfg log e cutFail cutOps).filter
        (fun a => a.atype == "MULTIPLE_FAILED_LOGINS")
      = if (e.success = false ∧ strIncludes e.operation "LOGIN" = true)
            ∧ cfg.maxFailedAttempts ≤ getRecentFailedAttempts log e.user cutFail
        then [{ atype := "MULTIPLE_FAILED_LOGINS", severity := "HIGH" }] else [])
    ∧ (cfg.maxFailedAttempts = 5 →
       getRecentFailedAttempts log e.user cutFail = 6 →
       e.user = "bob" →
       e.success = false →
       strIncludes e.operation "LOGIN" = true →
       (checkSuspiciousActivity cfg log e cutFail cutOps).filter
           (fun a => a.atype == "MULTIPLE_FAILED_LOGINS")
         = [{ atype := "MULTIPLE_FAILED_LOGINS", severity := "HIGH" }]) := by
  have hmain : (checkSuspiciousActivity cfg log e cutFail cutOps).filter
      (fun a => a.atype == "MULTIPLE_FAILED_LOGINS")
      = if (e.success = false ∧ strIncludes e.operation "LOGIN" = true)
            ∧ cfg.maxFailedAttempts ≤ getRecentFailedAttempts log e.user cutFail
        then [{ atype := "MULTIPLE_FAILED_LOGINS", severity := "HIGH" }] else [] := by
    unfold checkSuspiciousActivity
    simp [List.filter_append, filter_single_ite]
  refine ⟨hmain, ?_⟩
  intro hmax hcount _huser hsucc hlogin
  rw [hmain, if_pos ⟨⟨hsucc, hlogin⟩, by rw [hmax, hcount]; norm_num⟩]

/-- C1 witness: the concrete six-failed-logins scenario for bob, with the
default configuration, yields exactly one HIGH MULTIPLE_FAILED_LOGINS
activity. -/
theorem C1_repeated_failure_witness :
    (checkSuspiciousActivity defaultSecurityConfig logBob6 (bobFail 6) 0 0).filter
        (fun a => a.atype == "MULTIPLE_FAILED_LOGINS")
      = [{ atype := "MULTIPLE_FAILED_LOGINS", severity := "HIGH" }] :=
  (C1_repeated_failure_rule defaultSecurityConfig logBob6 (bobFail 6) 0 0).2
    (by decide) (by decide) (by decide) (by decide) (by decide)

/-! ## C2: the sensitive-resource rule -/

/-- C2 (amended): evaluating an entry emits exactly one
SENSITIVE_TABLE_ACCESS activity — at MEDIUM severity — precisely when the
entry's (truthy) resource, uppercased, contains one of the configured
sensitive names, independent of the entry's success flag. -/
theorem C2_sensitive_resource_rule (cfg : SecurityConfig) (log : List LogLine)
    (e : AuditEntry) (cutFail cutOps : Nat) :
    (checkSuspiciousActivity cfg log e cutFail cutOps).filter
        (fun a => a.atype == "SENSITIVE_TABLE_ACCESS")
      = if ∃ t ∈ cfg.sensitiveTables, resourceHit e.resource t = true
        then [{ atype := "SENSITIVE_TABLE_ACCESS", severity := "MEDIUM" }] else [] := by
  unfold checkSuspiciousActivity
  simp [List.filter_append, filter_single_ite]

/-- C2 (counterexample to the claim as stated): recording a successful
access to resource "USERS" under the default configuration emits the
sensitive-access activity at MEDIUM severity and no HIGH one; moreover,
with the lowercase configured name "users" the resource "users" — a
case-insensitive match — emits nothing at all, because the code
uppercases only the resource, not the configured name. -/
theorem C2_medium_not_high :
    (checkSuspiciousActivity defaultSecurityConfig [] eUsers 0 0).filter
        (fun a => a.atype == "SENSITIVE_TABLE_ACCESS")
      = [{ atype := "SENSITIVE_TABLE_ACCESS", severity := "MEDIUM" }]
    ∧ ({ atype := "SENSITIVE_TABLE_ACCESS", severity := "HIGH" } : SecurityActivity)
        ∉ checkSuspiciousActivity defaultSecurityConfig [] eUsers 0 0
    ∧ checkSuspiciousActivity cfgLower [] eUsersLower 0 0 = [] := by
  exact ⟨by decide, by decide, by decide⟩

/-! ## C9: the zero-entries report -/

/-- C9: when the report filter matches no stored line, the generated
report has total 0, carries the explicit empty-state message, and its
success rate is never computed (no division by the zero total). -/
theorem C9_empty_range_report (log : List LogLine) (o : ReportOptions)
    (h : filterEntries log o = []) :
    generateAuditReport log o =
      { total := 0, emptyMessage := true, successCount := 0, failedCount := 0
        successRatePct := none } := by
  unfold generateAuditReport
  rw [h]
  rfl

/-- C9 witness: a one-line log with an empty filter range. -/
theorem C9_empty_range_report_witness :
    filterEntries [LogLine.ok eBase] optsEmptyRange = []
    ∧ generateAuditReport [LogLine.ok eBase] optsEmptyRange =
      { total := 0, emptyMessage := true, successCount := 0, failedCount := 0
        successRatePct := none } :=
  ⟨by decide, C9_empty_range_report [LogLine.ok eBase] optsEmptyRange (by decide)⟩

/-! ## C6 and C10: retention pruning -/

/-- C6 (amended): a successful prune leaves exactly the filtered lines
(malformed lines and records strictly newer than the cutoff); a read
failure leaves the log untouched; but the rewrite happens in place on the
same path, so a write failure leaves an initial segment of the new
contents on disk rather than the pre-prune state. -/
theorem C6_prune_rewrite (log : List LogLine) (c n : Nat) (w : WriteOutcome) :
    cleanOldAuditLogsRun log true WriteOutcome.ok c = cleanLines log c
    ∧ cleanOldAuditLogsRun log false w c = log
    ∧ cleanOldAuditLogsRun log true (WriteOutcome.failAfter n) c
        = (cleanLines log c).take n :=
  ⟨rfl, rfl, rfl⟩

/-- C6 (counterexample to the claim as stated): a prune whose in-place
write fails immediately leaves an empty log, not the pre-prune state; and
an entry dated exactly at the cutoff — not older than it — is removed by
a successful prune. -/
theorem C6_prune_not_atomic :
    cleanOldAuditLogsRun [LogLine.ok eFresh] true (WriteOutcome.failAfter 0) 1000
      ≠ [LogLine.ok eFresh]
    ∧ cleanLines [LogLine.ok eAtCut] 1000 = []
    ∧ ¬ eAtCut.timestamp < 1000 :=
  ⟨by decide, by decide, by decide⟩

/-- C10 (amended): pruning retains every malformed line regardless of
age; every line it removes is a parseable record whose timestamp is at
most the cutoff (so an entry exactly at the cutoff is removed too); and a
parseable entry is kept precisely when its timestamp is strictly newer
than the cutoff. -/
theorem C10_prune_retains_malformed (log : List LogLine) (c : Nat) :
    (∀ s, LogLine.bad s ∈ log → LogLine.bad s ∈ cleanLines log c)
    ∧ (∀ l ∈ log, l ∉ cleanLines log c →
        match l with
        | LogLine.ok e => e.timestamp ≤ c
        | LogLine.sec r => r.timestamp ≤ c
        | LogLine.bad _ => False)
    ∧ (∀ e : AuditEntry,
        LogLine.ok e ∈ cleanLines log c ↔ LogLine.ok e ∈ log ∧ c < e.timestamp) := by
  refine ⟨?_, ?_, ?_⟩
  · intro s hs
    simp [cleanLines, List.mem_filter, keepLine, hs]
  · intro l hl hnot
    cases l with
    | ok e =>
        show e.timestamp ≤ c
        simp [cleanLines, List.mem_filter, keepLine, hl] at hnot
        omega
    | sec r =>
        show r.timestamp ≤ c
        simp [cleanLines, List.mem_filter, keepLine, hl] at hnot
        omega
    | bad s =>
        show False
        simp [cleanLines, List.mem_filter, keepLine, hl] at hnot
  · intro e
    simp [cleanLines, List.mem_filter, keepLine]

/-- C10 witness: a malformed line survives a prune that removes an old
parsed entry next to it. -/
theorem C10_prune_retains_malformed_witness :
    LogLine.bad "not json" ∈
      cleanLines [LogLine.ok eBoundary, LogLine.bad "not json"] 99999 :=
  (C10_prune_retains_malformed [LogLine.ok eBoundary, LogLine.bad "not json"] 99999).1
    "not json" (by decide)

/-- C10 (counterexample to the claim as stated): an entry dated exactly
at the cutoff is removed, although its timestamp is not older than the
cutoff. -/
theorem C10_removes_entry_at_cutoff :
    cleanLines [LogLine.ok eBoundary] 500 = [] ∧ ¬ eBoundary.timestamp < 500 :=
  ⟨by decide, by decide⟩

/-! ## C7: malformed lines during query/scan -/

theorem filter_drop_bad (p : LogLine → Bool) (hp : ∀ s, p (LogLine.bad s) = false)
    (log : List LogLine) :
    List.filter p (log.filter fun l => !isBad l) = List.filter p log := by
  rw [List.filter_filter]
  have h : ∀ a, (p a && !isBad a) = p a := by
    intro a
    cases a with
    | ok e => simp [isBad]
    | sec r => simp [isBad]
    | bad s => simp [isBad, hp]
  simp only [h]

/-- C7 (amended): both the report generator and the suspicious-activity
scan behave on any log exactly as on the same log with its malformed
lines removed — malformed lines are skipped and, being total functions,
the reads never abort. -/
theorem C7_malformed_lines_skipped (log : List LogLine) (o : ReportOptions)
    (cutoff : Nat) :
    generateAuditReport (log.filter fun l => !isBad l) o = generateAuditReport log o
    ∧ detectSuspiciousActivity (log.filter fun l => !isBad l) cutoff
        = detectSuspiciousActivity log cutoff := by
  constructor
  · unfold generateAuditReport filterEntries
    rw [filter_drop_bad _ (fun _ => rfl)]
  · unfold detectSuspiciousActivity recentParsed
    rw [filter_drop_bad _ (fun _ => rfl)]

/-- C7 (counterexample to the claim as stated): the outputs of the report
generator and of the scan are identical whether the log holds one or two
malformed lines, so no operation counts the malformed lines it skips. -/
theorem C7_malformed_lines_not_counted :
    generateAuditReport [LogLine.bad "x"] opts0
      = generateAuditReport [LogLine.bad "x", LogLine.bad "y"] opts0
    ∧ detectSuspiciousActivity [LogLine.bad "x"] 0
        = detectSuspiciousActivity [LogLine.bad "y", LogLine.bad "x"] 0 :=
  ⟨by decide, by decide⟩

/-! ## C8: audit append failure -/

/-- C8 (amended): `logOperation` never propagates an error to its caller
— in particular, when the append target is unwritable it catches the
storage error, logs it and returns with the log unchanged, so the audited
operation is never invalidated by an audit failure. -/
theorem C8_append_failure_swallowed (cfg : SecurityConfig) (log : List LogLine)
    (e : AuditEntry) (now cutFail cutOps : Nat) :
    (∀ w : Bool, (logOperation w cfg log e now cutFail cutOps).propagated = none)
    ∧ logOperation false cfg log e now cutFail cutOps =
        { log := log, propagated := none
          loggedErrors := ["Erro ao registrar operação de auditoria:"] } := by
  constructor
  · intro w
    cases w <;> rfl
  · rfl

/-- C8 (counterexample to the claim as stated): with an unwritable append
target the call returns normally — no StorageError reaches the direct
caller — and the log is unchanged. -/
theorem C8_unwritable_no_surfaced_error :
    (logOperation false defaultSecurityConfig [] eBase 0 0 0).propagated = none
    ∧ (logOperation false defaultSecurityConfig [] eBase 0 0 0).log = [] :=
  ⟨rfl, rfl⟩

/-! ## C4: notification fan-out -/

theorem lookup_setFirst_self (subs : List (String × List Handler)) (t : String)
    (v : List Handler) :
    List.lookup t (setFirst subs t v) = some v := by
  induction subs with
  | nil => simp [setFirst, List.lookup]
  | cons p rest ih =>
      obtain ⟨k, w⟩ := p
      by_cases h : k = t
      · subst h
        simp [setFirst, List.lookup]
      · have hkt : (k == t) = false := beq_eq_false_iff_ne.mpr h
        have htk : (t == k) = false := beq_eq_false_iff_ne.mpr (Ne.symm h)
        simp [setFirst, List.lookup, hkt, htk, ih]

theorem lookup_setFirst_ne (subs : List (String × List Handler)) (t s : String)
    (v : List Handler) (hne : s ≠ t) :
    List.lookup s (setFirst subs t v) = List.lookup s subs := by
  have hst : (s == t) = false := beq_eq_false_iff_ne.mpr hne
  induction subs with
  | nil => simp [setFirst, List.lookup, hst]
  | cons p rest ih =>
      obtain ⟨k, w⟩ := p
      by_cases h : k = t
      · subst h
        simp [setFirst, List.lookup, hst]
      · have hkt : (k == t) = false := beq_eq_false_iff_ne.mpr h
        cases hsk : s == k <;> simp [setFirst, List.lookup, hkt, hsk, ih]

theorem handlersFor_subscribe_self (subs : List (String × List Handler))
    (t : String) (h : Handler) :
    handlersFor (subscribe subs t h) t = handlersFor subs t ++ [h] := by
  cases hl : List.lookup t subs with
  | none => simp [subscribe, handlersFor, hl, lookup_setFirst_self]
  | some w => simp [subscribe, handlersFor, hl, lookup_setFirst_self]

theorem handlersFor_subscribe_ne (subs : List (String × List Handler))
    (t : String) (h : Handler) (s : String) (hne : s ≠ t) :
    handlersFor (subscribe subs t h) s = handlersFor subs s := by
  by_cases hl : (List.lookup t subs).isNone
  · simp [subscribe, handlersFor, hl, lookup_setFirst_ne _ _ _ _ hne]
  · simp [subscribe, handlersFor, hl, lookup_setFirst_ne _ _ _ _ hne]

theorem runCallbacks_spec (n : Notification) (hs : List Handler) :
    runCallbacks n hs
      = (hs.map Handler.hid, (hs.filter fun h => !h.succeeds n).map Handler.hid) := by
  induction hs with
  | nil => rfl
  | cons h t ih =>
      cases hsuc : h.succeeds n <;> simp [runCallbacks, ih, hsuc, List.filter_cons]

/-- C4: publishing a notification invokes exactly the callbacks registered
for its type followed by the callbacks registered for the wildcard type,
in registration order and regardless of which callbacks throw; each
throwing callback is logged; `subscribe` appends one registration to the
chosen type's list and leaves other types untouched (so a duplicate
registration is invoked once per registration); and a callback registered
under neither the notification's type nor the wildcard is never invoked.
The dispatch function is total, so no callback error reaches the
publisher. -/
theorem C4_publish_fanout (subs : List (String × List Handler)) (n : Notification) :
    ((notifySubscribers subs n).1
      = (handlersFor subs n.ntype).map Handler.hid
        ++ (handlersFor subs "*").map Handler.hid)
    ∧ ((notifySubscribers subs n).2
      = ((handlersFor subs n.ntype).filter fun h => !h.succeeds n).map Handler.hid
        ++ ((handlersFor subs "*").filter fun h => !h.succeeds n).map Handler.hid)
    ∧ (∀ t h, handlersFor (subscribe subs t h) t = handlersFor subs t ++ [h])
    ∧ (∀ t h s, s ≠ t → handlersFor (subscribe subs t h) s = handlersFor subs s)
    ∧ (∀ i : Nat, i ∉ (handlersFor subs n.ntype).map Handler.hid →
        i ∉ (handlersFor subs "*").map Handler.hid →
        i ∉ (notifySubscribers subs n).1) := by
  have e1 : (notifySubscribers subs n).1
      = (handlersFor subs n.ntype).map Handler.hid
        ++ (handlersFor subs "*").map Handler.hid := by
    simp [notifySubscribers, runCallbacks_spec]
  refine ⟨e1, ?_, ?_, ?_, ?_⟩
  · simp [notifySubscribers, runCallbacks_spec]
  · intro t h
    exact handlersFor_subscribe_self subs t h
  · intro t h s hne
    exact handlersFor_subscribe_ne subs t h s hne
  · intro i hA hB hmem
    rw [e1] at hmem
    rcases List.mem_append.mp hmem with hm | hm
    · exact hA hm
    · exact hB hm

/-- C4 witness: on a concrete bus with a throwing and a normal callback
registered for type "X", an id registered nowhere is not invoked. -/
theorem C4_publish_fanout_witness : (3 : Nat) ∉ (notifySubscribers subsX nX).1 :=
  (C4_publish_fanout subsX nX).2.2.2.2 3 (by decide) (by decide)

/-! ## C5: export/import round trip -/

theorem import_foldl_valid (fresh : Nat → String) (data : List Notification) :
    ∀ (bus : List Notification) (c : Nat),
    (∀ n ∈ data, validateNotification n = true) →
    data.foldl
      (fun acc n =>
        if validateNotification n then
          (acc.1 ++ [{ n with id := fresh acc.2 }], acc.2 + 1)
        else acc)
      (bus, c)
    = (bus ++ reassign fresh c data, c + data.length) := by
  induction data with
  | nil =>
      intro bus c _
      simp [reassign]
  | cons n t ih =>
      intro bus c hv
      have hn : validateNotification n = true := hv n (List.mem_cons_self n t)
      simp only [List.foldl_cons, hn, if_true, reassign, List.length_cons]
      rw [ih _ _ fun m hm => hv m (List.mem_cons_of_mem n hm)]
      congr 1
      · rw [List.append_assoc]
        rfl
      · omega

theorem reassign_length (fresh : Nat → String) (data : List Notification) :
    ∀ c, (reassign fresh c data).length = data.length := by
  induction data with
  | nil => intro c; rfl
  | cons n t ih => intro c; simp [reassign, ih]

theorem reassign_message (fresh : Nat → String) (data : List Notification) :
    ∀ c, (reassign fresh c data).map (fun n => n.message)
      = data.map (fun n => n.message) := by
  induction data with
  | nil => intro c; rfl
  | cons n t ih => intro c; simp [reassign, ih]

/-- C5 (amended): exporting a bus's notifications to JSON and importing
the result into a fresh bus reproduces, when every held notification has
non-empty type, message and timestamp, the same number of notifications
with the same messages, each carrying a freshly generated id (the
imported list is exactly the original with ids reassigned from the
fresh-id stream). -/
theorem C5_export_import_roundtrip (ns : List Notification) (fresh : Nat → String)
    (hv : ∀ n ∈ ns, validateNotification n = true) :
    (importNotifications [] (exportNotificationsJson ns) fresh).1 = reassign fresh 0 ns
    ∧ ((importNotifications [] (exportNotificationsJson ns) fresh).1).length = ns.length
    ∧ ((importNotifications [] (exportNotificationsJson ns) fresh).1).map
        (fun n => n.message) = ns.map (fun n => n.message)
    ∧ (importNotifications [] (exportNotificationsJson ns) fresh).2 = ns.length := by
  have himp : importNotifications [] (exportNotificationsJson ns) fresh
      = (reassign fresh 0 ns, ns.length) := by
    unfold importNotifications exportNotificationsJson
    rw [import_foldl_valid fresh ns [] 0 hv]
    simp
  rw [himp]
  exact ⟨rfl, reassign_length fresh ns 0, reassign_message fresh ns 0, rfl⟩

/-- C5 witness: a one-element bus with a valid notification round-trips
with its message preserved. -/
theorem C5_export_import_roundtrip_witness :
    ((importNotifications [] (exportNotificationsJson [nValid]) freshIds).1).map
        (fun n => n.message) = ["hello"] :=
  ((C5_export_import_roundtrip [nValid] freshIds (by decide)).2.2.1).trans (by decide)

/-- C5 (counterexample to the claim as stated): a bus holding one
notification whose message is the empty string exports one notification,
but importing the export into a fresh bus drops it (its required
`message` field is falsy), so the counts differ. -/
theorem C5_roundtrip_loses_invalid :
    ((importNotifications [] (exportNotificationsJson [nEmptyMsg]) freshIds).1).length
      ≠ ([nEmptyMsg] : List Notification).length := by
  decide

end Firebird
